import Mathlib

/-!
Verification of the meeting-intelligence pipeline (transcription, extraction,
newsletter composition) of the youtube-dloader repository.

The Python modules `app/services/transcription.py`, `analyze_transcript_fixed.py`
and `generate_newsletter.py` are shallowly embedded below.  External
collaborators (the local file system, the speech-to-text endpoint, the
chat-completion endpoint, the JSON library's parser and serializer) are
modelled as an explicit environment `Env` of oracle functions; everything the
repository's own code does with their answers is translated faithfully.
Machine floats appear only in the cost estimate and in the megabyte rendering
of the large-file error message; both are modelled with exact rationals /
round-half-to-even decimal rounding, which agrees with the Python formatting on
all inputs that are exactly representable.
-/

/-- Python `dict.get(key, default)` for string-valued optional fields. -/
def pyGetD (o : Option String) (d : String) : String := o.getD d

/-- Rendering of a possibly-missing value inside a Python f-string:
`None` prints as the four characters `None`. -/
def pyStr (o : Option String) : String := o.getD "None"

/-- Python string slicing `s[:n]`: the first `n` characters of `s`. -/
def pyTake (s : String) (n : Nat) : String := String.mk (s.data.take n)

/-- Round `n / d` to the nearest integer, ties to even (the rounding used by
Python's fixed-point float formatting). -/
def roundHalfEven (n d : Nat) : Nat :=
  let q := n / d
  let r := n % d
  if 2 * r < d then q
  else if d < 2 * r then q + 1
  else if q % 2 = 0 then q else q + 1

/-- Model of the Python f-string field `{size / 1024 / 1024:.1f}` applied to a
byte count: the size in MiB printed with one digit after the decimal point. -/
def fmtMB1 (size : Nat) : String :=
  let t := roundHalfEven (size * 10) (1024 * 1024)
  toString (t / 10) ++ "." ++ toString (t % 10)

/-- The meeting metadata dictionary (`meeting_info`): the three fields the
code reads, each possibly absent.  `mtype` stands for the Python key `type`. -/
structure MeetingInfo where
  jurisdiction : Option String
  date : Option String
  mtype : Option String
deriving DecidableEq

/-- A successful answer of the speech-to-text endpoint
(`client.audio.transcriptions.create`): the attributes the code reads.
Segments are kept as opaque payloads. -/
structure WhisperOk where
  text : String
  duration : Option Nat
  language : Option String
  segments : List String
deriving DecidableEq

/-- A successful answer of the chat-completion endpoint: the message content
(`response.choices[0].message.content`) and the token usage the analysis
service reads (`response.usage.total_tokens`, absent when not reported). -/
structure ChatOk where
  content : String
  usage : Option Nat
deriving DecidableEq

/-- The structured shape the extraction step tries to parse the model response
into (the JSON schema requested by the analysis prompt).  Entry payloads are
kept as opaque strings; `raw_analysis` is the fallback field used when the
response is not parseable JSON. -/
structure AnalysisData where
  projects : List String
  regulatory_changes : List String
  market_intelligence : List String
  key_people : List String
  newsletter_highlights : List String
  raw_analysis : Option String
deriving DecidableEq

/-- `{"raw_analysis": analysis_text}`: the fallback record built when
`json.loads` fails — every structured field empty/absent. -/
def AnalysisData.rawFallback (text : String) : AnalysisData :=
  { projects := [], regulatory_changes := [], market_intelligence := [],
    key_people := [], newsletter_highlights := [], raw_analysis := some text }

/-- The external world of the pipeline: local files (path to byte size, `none`
when the file does not exist), the speech-to-text endpoint, the chat-completion
endpoint (keyed by system message and user message; `Except.error` models a
raised API exception), the JSON parser (`json.loads`, `none` on
`JSONDecodeError`) and the JSON serializers (`json.dumps(..., indent=2)`). -/
structure Env where
  fs : String → Option Nat
  whisper : String → Except String WhisperOk
  chat : String → String → Except String ChatOk
  parseJson : String → Option AnalysisData
  dumpsList : List String → String
  dumpsAnalysis : AnalysisData → String

/-- Result dictionary of the transcription service: union of the key sets of
the dictionaries returned on the various paths of `transcribe_meeting`; keys a
path does not set are `none` / empty. -/
structure TResult where
  success : Bool
  error : Option String := none
  transcript : Option String := none
  meeting_info : Option MeetingInfo := none
  duration : Option Nat := none
  language : Option String := none
  segments : List String := []
  cost_estimate : Option Rat := none
  processed_at : Option String := none
  enhanced_sections : List String := []
  suggestion : Option String := none
deriving DecidableEq

/-- Result of `_enhance_transcript`. -/
structure EnhanceResult where
  text : String
  sections : List String
deriving DecidableEq

namespace TranscriptionService

/-- `self.max_file_size = 25 * 1024 * 1024  # 25MB limit for Whisper` -/
def max_file_size : Nat := 25 * 1024 * 1024

/-- `TranscriptionService._transcribe_file`: one call to the speech-to-text
endpoint; an endpoint exception is caught and wrapped. -/
def _transcribe_file (env : Env) (file_path : String) : TResult :=
  match env.whisper file_path with
  | .ok w =>
      { success := true, transcript := some w.text, duration := w.duration,
        language := w.language, segments := w.segments }
  | .error e =>
      { success := false, error := some ("OpenAI Whisper error: " ++ e),
        transcript := none }

/-- `TranscriptionService._enhance_transcript`: the enhancement prompt is
built and discarded; the placeholder implementation returns the input
transcript unchanged with an empty section list (the `except` branch is
unreachable, nothing in the `try` block can raise). -/
def _enhance_transcript (raw_transcript : String) (_meeting_info : MeetingInfo) :
    EnhanceResult :=
  { text := raw_transcript, sections := [] }

/-- `TranscriptionService._handle_large_file`: reject the file with the size
(in MiB, one decimal digit) in the message and a suggestion field. -/
def _handle_large_file (file_size : Nat) (_meeting_info : MeetingInfo) : TResult :=
  { success := false,
    error := some ("File too large (" ++ fmtMB1 file_size ++
      "MB). Maximum size is 25MB."),
    transcript := none,
    suggestion := some ("Please use audio optimization tools to reduce file " ++
      "size or implement file chunking.") }

/-- `TranscriptionService._calculate_cost`: `duration_minutes * 0.006`,
`0.0` when the duration is `None`. -/
def _calculate_cost (duration_minutes : Option Nat) : Rat :=
  match duration_minutes with
  | none => 0
  | some d => d * (6 / 1000 : Rat)

/-- `TranscriptionService.transcribe_meeting`.  Returns the result dictionary
together with the number of speech-to-text endpoint calls issued.  `now` is
the timestamp `datetime.now().isoformat()`. -/
def transcribe_meeting (env : Env) (file_path : String)
    (meeting_info : MeetingInfo) (now : String) : TResult × Nat :=
  match env.fs file_path with
  | none =>
      ({ success := false, error := some ("File not found: " ++ file_path),
         transcript := none }, 0)
  | some size =>
      if max_file_size < size then
        (_handle_large_file size meeting_info, 0)
      else
        let transcript_result := _transcribe_file env file_path
        if transcript_result.success = false then
          (transcript_result, 1)
        else
          let enhanced_result :=
            _enhance_transcript (transcript_result.transcript.getD "") meeting_info
          ({ success := true,
             transcript := some enhanced_result.text,
             meeting_info := some meeting_info,
             duration := transcript_result.duration,
             language := transcript_result.language,
             segments := transcript_result.segments,
             cost_estimate := some (_calculate_cost transcript_result.duration),
             processed_at := some now,
             enhanced_sections := enhanced_result.sections }, 1)

end TranscriptionService

/-- Result dictionary of `MeetingAnalysisService.analyze_transcript`. -/
structure AResult where
  success : Bool
  error : Option String := none
  analysis : Option AnalysisData := none
  meeting_info : Option MeetingInfo := none
  analyzed_at : Option String := none
  token_usage : Option Nat := none
deriving DecidableEq

namespace MeetingAnalysisService

/-- The system message of the analysis request. -/
def analysisSystem : String :=
  "You are an expert Triangle area development analyst who extracts key " ++
  "information from planning meetings."

/-- The part of the analysis prompt before the transcript slice (the meeting
details and the fixed JSON schema description). -/
def analysisPromptHead (meeting_info : MeetingInfo) : String :=
  "\n        Analyze this " ++ pyGetD meeting_info.jurisdiction "Triangle" ++
  " planning meeting transcript and extract development intelligence for a professional newsletter.\n" ++
  "        \n" ++
  "        Meeting Details:\n" ++
  "        - Jurisdiction: " ++ pyGetD meeting_info.jurisdiction "Unknown" ++ "\n" ++
  "        - Date: " ++ pyGetD meeting_info.date "Unknown" ++ "\n" ++
  "        - Type: " ++ pyGetD meeting_info.mtype "Planning Commission" ++ "\n" ++
  "        \n" ++
  "        Extract and return JSON with these sections:\n" ++
  "        \n" ++
  "        \x7b\n" ++
  "            \"projects\": [\n" ++
  "                \x7b\n" ++
  "                    \"name\": \"project_name\",\n" ++
  "                    \"address\": \"street_address\",\n" ++
  "                    \"developer\": \"developer_company\",\n" ++
  "                    \"applicant\": \"applicant_name\",\n" ++
  "                    \"project_type\": \"residential/commercial/mixed-use/etc\",\n" ++
  "                    \"current_status\": \"application/review/approval/denial/deferred\",\n" ++
  "                    \"vote_outcome\": \"approved/denied/deferred/no_vote\",\n" ++
  "                    \"vote_details\": \"vote_count_if_available\",\n" ++
  "                    \"key_concerns\": [\"list\", \"of\", \"concerns\"],\n" ++
  "                    \"conditions\": [\"approval\", \"conditions\"],\n" ++
  "                    \"timeline\": \"next_steps_or_deadlines\",\n" ++
  "                    \"opposition\": \"summary_of_public_opposition\",\n" ++
  "                    \"staff_recommendation\": \"staff_position\"\n" ++
  "                \x7d\n" ++
  "            ],\n" ++
  "            \"regulatory_changes\": [\n" ++
  "                \x7b\n" ++
  "                    \"topic\": \"ordinance/fee/policy_change\",\n" ++
  "                    \"description\": \"what_changed\",\n" ++
  "                    \"impact\": \"effect_on_development\",\n" ++
  "                    \"effective_date\": \"when_it_takes_effect\"\n" ++
  "                \x7d\n" ++
  "            ],\n" ++
  "            \"market_intelligence\": [\n" ++
  "                \x7b\n" ++
  "                    \"trend\": \"observed_pattern\",\n" ++
  "                    \"description\": \"trend_details\",\n" ++
  "                    \"implications\": \"what_it_means_for_developers\"\n" ++
  "                \x7d\n" ++
  "            ],\n" ++
  "            \"key_people\": [\n" ++
  "                \x7b\n" ++
  "                    \"name\": \"person_name\",\n" ++
  "                    \"role\": \"commissioner/staff/developer\",\n" ++
  "                    \"notable_positions\": \"key_statements_or_positions\"\n" ++
  "                \x7d\n" ++
  "            ],\n" ++
  "            \"newsletter_highlights\": [\n" ++
  "                \"Most important takeaway 1\",\n" ++
  "                \"Most important takeaway 2\",\n" ++
  "                \"Most important takeaway 3\"\n" ++
  "            ]\n" ++
  "        \x7d\n" ++
  "        \n" ++
  "        Focus on actionable intelligence that Triangle development professionals need to know.\n" ++
  "        \n" ++
  "        Transcript:\n" ++
  "        "

/-- The literal text after the transcript slice in the analysis prompt (the
trailing `# Limit ...` text is part of the f-string, not a Python comment). -/
def analysisPromptTail : String :=
  "  # Limit transcript to avoid token limits\n        "

/-- `MeetingAnalysisService._build_analysis_prompt`: the prompt embeds the
first 12000 characters of the transcript (`transcript[:12000]`). -/
def _build_analysis_prompt (transcript : String) (meeting_info : MeetingInfo) :
    String :=
  analysisPromptHead meeting_info ++ pyTake transcript 12000 ++ analysisPromptTail

/-- `MeetingAnalysisService.analyze_transcript`: one chat-completion call; the
response content is parsed as JSON with a raw-text fallback; endpoint errors
are caught and wrapped.  Returns the result together with the number of
chat-completion calls issued. -/
def analyze_transcript (env : Env) (transcript : String)
    (meeting_info : MeetingInfo) (now : String) : AResult × Nat :=
  match env.chat analysisSystem (_build_analysis_prompt transcript meeting_info) with
  | .error e =>
      ({ success := false, error := some ("Analysis failed: " ++ e),
         analysis := none }, 1)
  | .ok c =>
      let analysis_data :=
        match env.parseJson c.content with
        | some d => d
        | none => AnalysisData.rawFallback c.content
      ({ success := true, analysis := some analysis_data,
         meeting_info := some meeting_info, analyzed_at := some now,
         token_usage := c.usage }, 1)

end MeetingAnalysisService

namespace AnalyzeTranscriptFixed

/-- The part of the standalone script's analysis prompt
(`analyze_transcript_fixed.build_analysis_prompt`) before the transcript. -/
def fixedPromptHead (meeting_info : MeetingInfo) : String :=
  "\nAnalyze this " ++ pyGetD meeting_info.jurisdiction "Triangle" ++
  " planning meeting transcript and extract development intelligence for the Triangle Development Digest newsletter.\n" ++
  "\n" ++
  "Meeting Details:\n" ++
  "- Jurisdiction: " ++ pyGetD meeting_info.jurisdiction "Unknown" ++ "\n" ++
  "- Date: " ++ pyGetD meeting_info.date "Unknown" ++ "\n" ++
  "- Type: " ++ pyGetD meeting_info.mtype "Planning Commission" ++ "\n" ++
  "\n" ++
  "Extract and return JSON with these sections:\n" ++
  "\n" ++
  "\x7b\n" ++
  "    \"projects\": [\n" ++
  "        \x7b\n" ++
  "            \"name\": \"project_name or case_number\",\n" ++
  "            \"address\": \"street_address or location\", \n" ++
  "            \"case_number\": \"zoning_case_number if mentioned\",\n" ++
  "            \"developer\": \"developer_company\",\n" ++
  "            \"applicant\": \"applicant_name\",\n" ++
  "            \"project_type\": \"residential/commercial/mixed-use/rezoning/etc\",\n" ++
  "            \"current_status\": \"application/review/approval/denial/deferred\",\n" ++
  "            \"vote_outcome\": \"approved/denied/deferred/no_vote\",\n" ++
  "            \"vote_details\": \"vote_count_if_available (e.g. 9-0, 7-2)\",\n" ++
  "            \"key_concerns\": [\"list\", \"of\", \"concerns\", \"raised\"],\n" ++
  "            \"conditions\": [\"approval\", \"conditions\", \"if any\"],\n" ++
  "            \"timeline\": \"next_steps_or_deadlines\",\n" ++
  "            \"opposition\": \"summary_of_public_opposition\",\n" ++
  "            \"staff_recommendation\": \"staff_position\",\n" ++
  "            \"acreage\": \"land_size_if_mentioned\",\n" ++
  "            \"previous_action\": \"history_from_previous_meetings\"\n" ++
  "        \x7d\n" ++
  "    ],\n" ++
  "    \"key_people\": [\n" ++
  "        \x7b\n" ++
  "            \"name\": \"person_name\",\n" ++
  "            \"role\": \"commissioner/staff/developer/citizen\",\n" ++
  "            \"notable_positions\": \"key_statements_or_positions\"\n" ++
  "        \x7d\n" ++
  "    ],\n" ++
  "    \"newsletter_highlights\": [\n" ++
  "        \"Most important takeaway for Triangle developers 1\",\n" ++
  "        \"Most important takeaway for Triangle developers 2\", \n" ++
  "        \"Most important takeaway for Triangle developers 3\"\n" ++
  "    ]\n" ++
  "\x7d\n" ++
  "\n" ++
  "Focus on actionable intelligence that Triangle development professionals need to know. Pay special attention to:\n" ++
  "- Specific project names, addresses, and case numbers\n" ++
  "- Vote outcomes and commissioner positions  \n" ++
  "- Timeline and next steps\n" ++
  "- Staff recommendations and their success rate\n" ++
  "\n" ++
  "Transcript:\n"

/-- `analyze_transcript_fixed.build_analysis_prompt`: the standalone script
embeds the transcript in full (`{transcript}`, no slicing). -/
def build_analysis_prompt (transcript : String) (meeting_info : MeetingInfo) :
    String :=
  fixedPromptHead meeting_info ++ transcript ++ "\n"

end AnalyzeTranscriptFixed

/-- The `processing_summary` sub-dictionary of the combined pipeline result. -/
structure ProcSummary where
  transcription_cost : Rat
  transcript_length : Nat
  analysis_tokens : Option Nat
  processed_at : String
deriving DecidableEq

/-- The `errors` sub-dictionary of the combined pipeline result. -/
structure ErrPair where
  transcription_error : Option String
  analysis_error : Option String
deriving DecidableEq

/-- Result dictionary of `MeetingProcessor.process_meeting_file`: union of the
key sets of the early-returned transcription-failure dictionary and of the
combined dictionary.  Keys a path does not set are `none`; in particular
`errors` is `none` exactly when the returned dictionary has no `errors` key. -/
structure PResult where
  success : Bool
  error : Option String := none
  transcript : Option String := none
  suggestion : Option String := none
  analysis : Option AnalysisData := none
  meeting_info : Option MeetingInfo := none
  processing_summary : Option ProcSummary := none
  errors : Option ErrPair := none
deriving DecidableEq

/-- Embedding of a transcription-stage failure dictionary into the pipeline
result type: the keys it actually carries are copied, all combined-result-only
keys are absent. -/
def TResult.toPResult (t : TResult) : PResult :=
  { success := t.success, error := t.error, transcript := t.transcript,
    suggestion := t.suggestion }

namespace MeetingProcessor

/-- `MeetingProcessor.process_meeting_file`: transcribe, then — only when
transcription succeeded — analyze and combine.  Returns the result together
with the numbers of speech-to-text and chat-completion endpoint calls. -/
def process_meeting_file (env : Env) (file_path : String)
    (meeting_info : MeetingInfo) (now : String) : PResult × Nat × Nat :=
  let tr := TranscriptionService.transcribe_meeting env file_path meeting_info now
  if tr.1.success = false then
    (tr.1.toPResult, tr.2, 0)
  else
    let ar := MeetingAnalysisService.analyze_transcript env
      (tr.1.transcript.getD "") meeting_info now
    ({ success := ar.1.success,
       transcript := tr.1.transcript,
       analysis := ar.1.analysis,
       meeting_info := some meeting_info,
       processing_summary := some
         { transcription_cost := tr.1.cost_estimate.getD 0,
           transcript_length :=
             match tr.1.transcript with
             | some t => if t = "" then 0 else t.length
             | none => 0,
           analysis_tokens := ar.1.token_usage,
           processed_at := now },
       errors := some
         { transcription_error := if tr.1.success then none else tr.1.error,
           analysis_error := if ar.1.success then none else ar.1.error } },
     tr.2, ar.2)

end MeetingProcessor

/-- The five newsletter section keys. -/
inductive SKey where
  | executive_summary
  | project_pipeline
  | market_intelligence
  | regulatory_watch
  | people_politics
deriving DecidableEq

/-- The `newsletter_sections` dictionary built by
`generate_newsletter_content`: a possibly-absent string per section key. -/
structure Sections where
  executive_summary : Option String
  project_pipeline : Option String
  market_intelligence : Option String
  regulatory_watch : Option String
  people_politics : Option String
deriving DecidableEq

/-- Dictionary lookup `sections.get(key)`. -/
def Sections.get (s : Sections) : SKey → Option String
  | .executive_summary => s.executive_summary
  | .project_pipeline => s.project_pipeline
  | .market_intelligence => s.market_intelligence
  | .regulatory_watch => s.regulatory_watch
  | .people_politics => s.people_politics

namespace GenerateNewsletter

/-- `Meeting: {jurisdiction} {type} - {date}` line shared by all five section
prompts (fields read with `.get`, so a missing field prints as `None`). -/
def meetingLine (meeting_info : MeetingInfo) : String :=
  "Meeting: " ++ pyStr meeting_info.jurisdiction ++ " " ++
  pyStr meeting_info.mtype ++ " - " ++ pyStr meeting_info.date ++ "\n"

/-- System message of the Project Pipeline generation request. -/
def pipelineSystem : String :=
  "You are a professional newsletter writer for Triangle development professionals."

/-- System message of the Market Intelligence generation request. -/
def marketSystem : String :=
  "You are a market analyst specializing in Triangle area development trends."

/-- System message of the Regulatory Watch generation request. -/
def regulatorySystem : String :=
  "You are a regulatory affairs expert focused on Triangle development processes."

/-- System message of the People & Politics generation request. -/
def peopleSystem : String :=
  "You are a political analyst covering Triangle development and planning politics."

/-- System message of the Executive Summary generation request. -/
def executiveSystem : String :=
  "You are an executive briefing writer for Triangle development professionals."

/-- User prompt of `generate_project_pipeline`. -/
def pipelinePrompt (env : Env) (analysis : AnalysisData)
    (meeting_info : MeetingInfo) : String :=
  "\nWrite a professional \"Project Pipeline\" section for the Triangle Development Digest newsletter.\n" ++
  "\n" ++
  meetingLine meeting_info ++
  "\n" ++
  "Projects to cover:\n" ++
  env.dumpsList analysis.projects ++ "\n" ++
  "\n" ++
  "Style Guidelines:\n" ++
  "- Professional but accessible tone\n" ++
  "- Focus on actionable intelligence for developers\n" ++
  "- Include specific project details (addresses, developers, timelines)\n" ++
  "- Highlight vote outcomes and next steps\n" ++
  "- 150-250 words\n" ++
  "- Use bullet points for key details\n" ++
  "\n" ++
  "Format as a complete newsletter section with a compelling headline.\n"

/-- User prompt of `generate_market_intelligence`. -/
def marketPrompt (env : Env) (analysis : AnalysisData)
    (meeting_info : MeetingInfo) : String :=
  "\nWrite a \"Market Intelligence\" section for the Triangle Development Digest newsletter.\n" ++
  "\n" ++
  meetingLine meeting_info ++
  "\n" ++
  "Analysis Data:\n" ++
  env.dumpsAnalysis analysis ++ "\n" ++
  "\n" ++
  "Focus on:\n" ++
  "- Development trends observed in this meeting\n" ++
  "- Commissioner attitudes toward development\n" ++
  "- Opposition patterns and community concerns\n" ++
  "- Process insights that affect project timelines\n" ++
  "- Strategic implications for developers\n" ++
  "\n" ++
  "Style: Insightful analysis that helps developers understand the political and market landscape.\n" ++
  "Length: 150-200 words\n" ++
  "Include a compelling headline.\n"

/-- User prompt of `generate_regulatory_watch`. -/
def regulatoryPrompt (env : Env) (analysis : AnalysisData)
    (meeting_info : MeetingInfo) : String :=
  "\nWrite a \"Regulatory Watch\" section for the Triangle Development Digest newsletter.\n" ++
  "\n" ++
  meetingLine meeting_info ++
  "\n" ++
  "Analysis Data:\n" ++
  env.dumpsAnalysis analysis ++ "\n" ++
  "\n" ++
  "Focus on:\n" ++
  "- Process changes or improvements mentioned\n" ++
  "- New requirements or conditions being imposed\n" ++
  "- Staff recommendation patterns\n" ++
  "- Timeline and deadline insights\n" ++
  "- Regulatory efficiency observations\n" ++
  "\n" ++
  "If no major regulatory changes were discussed, focus on process insights and timing observations that would help developers navigate the system more effectively.\n" ++
  "\n" ++
  "Style: Practical guidance for development professionals\n" ++
  "Length: 100-150 words\n" ++
  "Include headline focused on regulatory insights.\n"

/-- User prompt of `generate_people_politics`. -/
def peoplePrompt (env : Env) (analysis : AnalysisData)
    (meeting_info : MeetingInfo) : String :=
  "\nWrite a \"People & Politics\" section for the Triangle Development Digest newsletter.\n" ++
  "\n" ++
  meetingLine meeting_info ++
  "\n" ++
  "Key People:\n" ++
  env.dumpsList analysis.key_people ++ "\n" ++
  "\n" ++
  "Focus on:\n" ++
  "- Commissioner positions and voting patterns\n" ++
  "- Staff recommendations and their success rate\n" ++
  "- Developer/applicant strategies and presentations\n" ++
  "- Community opposition leaders and their concerns\n" ++
  "- Political dynamics that affect development approval\n" ++
  "\n" ++
  "Style: Professional insider intelligence that helps developers understand the human dynamics\n" ++
  "Length: 100-150 words\n" ++
  "Include headline about political insights or key relationships.\n"

/-- User prompt of `generate_executive_summary` (`chr(10).join` of bulleted
highlights, then the full analysis dump). -/
def executivePrompt (env : Env) (analysis : AnalysisData)
    (meeting_info : MeetingInfo) : String :=
  "\nWrite an \"Executive Summary\" section for the Triangle Development Digest newsletter.\n" ++
  "\n" ++
  meetingLine meeting_info ++
  "\n" ++
  "Key Highlights:\n" ++
  String.intercalate "\n"
    (analysis.newsletter_highlights.map (fun h => "• " ++ h)) ++ "\n" ++
  "\n" ++
  "Full Analysis:\n" ++
  env.dumpsAnalysis analysis ++ "\n" ++
  "\n" ++
  "Create a compelling executive summary that:\n" ++
  "- Captures the most important developments for Triangle developers\n" ++
  "- Highlights key opportunities and risks\n" ++
  "- Provides actionable takeaways\n" ++
  "- Sets context for the detailed sections that follow\n" ++
  "\n" ++
  "Style: Executive briefing tone - concise but comprehensive\n" ++
  "Length: 75-125 words\n" ++
  "Start with a strong headline that captures the meeting\x27s significance.\n"

/-- `generate_project_pipeline`: one chat-completion call; an exception is
caught and turned into an inline error placeholder string. -/
def generate_project_pipeline (env : Env) (analysis : AnalysisData)
    (meeting_info : MeetingInfo) : String :=
  match env.chat pipelineSystem (pipelinePrompt env analysis meeting_info) with
  | .ok c => c.content
  | .error e => "Error generating project pipeline content: " ++ e

/-- `generate_market_intelligence`. -/
def generate_market_intelligence (env : Env) (analysis : AnalysisData)
    (meeting_info : MeetingInfo) : String :=
  match env.chat marketSystem (marketPrompt env analysis meeting_info) with
  | .ok c => c.content
  | .error e => "Error generating market intelligence content: " ++ e

/-- `generate_regulatory_watch`. -/
def generate_regulatory_watch (env : Env) (analysis : AnalysisData)
    (meeting_info : MeetingInfo) : String :=
  match env.chat regulatorySystem (regulatoryPrompt env analysis meeting_info) with
  | .ok c => c.content
  | .error e => "Error generating regulatory watch content: " ++ e

/-- `generate_people_politics`. -/
def generate_people_politics (env : Env) (analysis : AnalysisData)
    (meeting_info : MeetingInfo) : String :=
  match env.chat peopleSystem (peoplePrompt env analysis meeting_info) with
  | .ok c => c.content
  | .error e => "Error generating people & politics content: " ++ e

/-- `generate_executive_summary`. -/
def generate_executive_summary (env : Env) (analysis : AnalysisData)
    (meeting_info : MeetingInfo) : String :=
  match env.chat executiveSystem (executivePrompt env analysis meeting_info) with
  | .ok c => c.content
  | .error e => "Error generating executive summary content: " ++ e

/-- The section-building core of `generate_newsletter_content` (lines 45-73):
`project_pipeline` and `people_politics` are added only when their source list
is truthy (non-empty); the other three sections are always added. -/
def generate_newsletter_content (env : Env) (analysis : AnalysisData)
    (meeting_info : MeetingInfo) : Sections :=
  { project_pipeline :=
      if analysis.projects.isEmpty then none
      else some (generate_project_pipeline env analysis meeting_info),
    market_intelligence :=
      some (generate_market_intelligence env analysis meeting_info),
    regulatory_watch :=
      some (generate_regulatory_watch env analysis meeting_info),
    people_politics :=
      if analysis.key_people.isEmpty then none
      else some (generate_people_politics env analysis meeting_info),
    executive_summary :=
      some (generate_executive_summary env analysis meeting_info) }

/-- The fixed emission order of `save_newsletter_content`. -/
def section_order : List SKey :=
  [.executive_summary, .project_pipeline, .market_intelligence,
   .regulatory_watch, .people_politics]

/-- The `## <Title>` heading used for each section key in the saved file. -/
def sectionTitle : SKey → String
  | .executive_summary => "## Executive Summary"
  | .project_pipeline => "## Project Pipeline"
  | .market_intelligence => "## Market Intelligence"
  | .regulatory_watch => "## Regulatory Watch"
  | .people_politics => "## People & Politics"

/-- Python truthiness test `key in sections and sections[key]`: the key is
present and its value is a non-empty string. -/
def sectionPresent (s : Sections) (k : SKey) : Bool :=
  match s.get k with
  | some c => !(c = "")
  | none => false

/-- The text written for one emitted section: heading, blank line, content,
blank line, horizontal rule. -/
def renderBlock (k : SKey) (c : String) : String :=
  sectionTitle k ++ "\n\n" ++ c ++ "\n\n" ++ "---\n\n"

/-- The fixed header written before the sections. -/
def fileHeader (meeting_info : MeetingInfo) : String :=
  "# Triangle Development Digest\n\n" ++
  "## " ++ pyStr meeting_info.jurisdiction ++ " " ++ pyStr meeting_info.mtype ++
  " - " ++ pyStr meeting_info.date ++ "\n\n"

/-- The trailing generation-timestamp line (`genTime` is
`datetime.now().strftime('%B %d, %Y at %I:%M %p')`). -/
def fileTrailer (genTime : String) : String :=
  "*Generated by PermitRDU AI on " ++ genTime ++ "*\n"

/-- The full text that `save_newsletter_content` writes to the newsletter
file: sequential `f.write` calls modelled as string concatenation, iterating
`section_order` and skipping sections that are absent or empty. -/
def save_newsletter_body (s : Sections) (meeting_info : MeetingInfo)
    (genTime : String) : String :=
  (section_order.foldl
    (fun acc k =>
      match s.get k with
      | some c => if c = "" then acc else acc ++ renderBlock k c
      | none => acc)
    (fileHeader meeting_info)) ++ fileTrailer genTime

end GenerateNewsletter

/-- Concatenation of a list of strings (used to characterise the emitted
newsletter section blocks). -/
def joinStr : List String → String
  | [] => ""
  | s :: rest => s ++ joinStr rest

/-- A concrete meeting-metadata record used by the witnesses. -/
def mi0 : MeetingInfo :=
  { jurisdiction := some "Raleigh", date := some "2025-08-12",
    mtype := some "Planning Commission" }

/-- Witness environment: one oversized local file; endpoints never consulted. -/
def envLarge : Env :=
  { fs := fun _ => some 26214401,
    whisper := fun _ => .error "unused",
    chat := fun _ _ => .error "unused",
    parseJson := fun _ => none,
    dumpsList := fun _ => "[]",
    dumpsAnalysis := fun _ => "\x7b\x7d" }

/-- Witness environment: a small file whose speech-to-text call fails. -/
def envSttFail : Env :=
  { fs := fun _ => some 100,
    whisper := fun _ => .error "boom",
    chat := fun _ _ => .error "unused",
    parseJson := fun _ => none,
    dumpsList := fun _ => "[]",
    dumpsAnalysis := fun _ => "\x7b\x7d" }

/-- Witness environment: a small file, speech-to-text succeeds, the analysis
chat call answers text that does not parse as JSON. -/
def envRawAnalysis : Env :=
  { fs := fun _ => some 100,
    whisper := fun _ => .ok ⟨"hello", none, none, []⟩,
    chat := fun _ _ => .ok ⟨"not json", none⟩,
    parseJson := fun _ => none,
    dumpsList := fun _ => "[]",
    dumpsAnalysis := fun _ => "\x7b\x7d" }

/-- Witness environment: the chat endpoint fails exactly on the Market
Intelligence request (recognised by its distinct system message) and answers
`ok` everywhere else. -/
def envMarketDown : Env :=
  { fs := fun _ => none,
    whisper := fun _ => .error "unused",
    chat := fun sys _ =>
      if sys = GenerateNewsletter.marketSystem then .error "boom"
      else .ok { content := "ok", usage := none },
    parseJson := fun _ => none,
    dumpsList := fun _ => "[]",
    dumpsAnalysis := fun _ => "\x7b\x7d" }

/-- A concrete analysis record with one project and one person. -/
def aW : AnalysisData :=
  { projects := ["p"], regulatory_changes := [], market_intelligence := [],
    key_people := ["k"], newsletter_highlights := [], raw_analysis := none }

/-- Witness environment: the requested local file does not exist. -/
def envNoFile : Env :=
  { fs := fun _ => none,
    whisper := fun _ => .error "unused",
    chat := fun _ _ => .error "unused",
    parseJson := fun _ => none,
    dumpsList := fun _ => "[]",
    dumpsAnalysis := fun _ => "\x7b\x7d" }

/-- Witness environment: transcription succeeds, the analysis chat call
fails. -/
def envAnalysisDown : Env :=
  { fs := fun _ => some 100,
    whisper := fun _ => .ok ⟨"hello", none, none, []⟩,
    chat := fun _ _ => .error "down",
    parseJson := fun _ => none,
    dumpsList := fun _ => "[]",
    dumpsAnalysis := fun _ => "\x7b\x7d" }

/-- A transcript of 12001 identical characters (one more than the truncation
budget). -/
def longT : String := String.mk (List.replicate 12001 'a')

/-- A transcript of exactly 12000 identical characters; it agrees with `longT`
on the first 12000 characters. -/
def longT' : String := String.mk (List.replicate 12000 'a')

/-- Claim C1: for every file path whose file exists with a size strictly above
26214400 bytes, `transcribe_meeting` returns a failure result whose error
message carries the actual file size (in MiB) and whose suggestion field asks
to pre-compress or chunk, and zero speech-to-text endpoint calls are issued. -/
theorem C1_large_file_rejected (env : Env) (path : String) (mi : MeetingInfo)
    (now : String) (size : Nat) (hfs : env.fs path = some size)
    (hsz : 26214400 < size) :
    TranscriptionService.transcribe_meeting env path mi now =
      ({ success := false,
         error := some ("File too large (" ++ fmtMB1 size ++
           "MB). Maximum size is 25MB."),
         transcript := none,
         suggestion := some ("Please use audio optimization tools to reduce " ++
           "file size or implement file chunking.") }, 0) := by
  have h : TranscriptionService.max_file_size < size := by
    have : TranscriptionService.max_file_size = 26214400 := by decide
    omega
  simp [TranscriptionService.transcribe_meeting, hfs, h,
    TranscriptionService._handle_large_file]

/-- Witness for C1: a 26214401-byte file is rejected with the 25.0 MiB message
and no endpoint call. -/
theorem C1_large_file_rejected_witness :
    envLarge.fs "meeting.mp3" = some 26214401 ∧ 26214400 < 26214401 ∧
    TranscriptionService.transcribe_meeting envLarge "meeting.mp3" mi0 "t" =
      ({ success := false,
         error := some "File too large (25.0MB). Maximum size is 25MB.",
         transcript := none,
         suggestion := some ("Please use audio optimization tools to reduce " ++
           "file size or implement file chunking.") }, 0) := by
  refine ⟨rfl, by norm_num, ?_⟩
  rw [C1_large_file_rejected envLarge "meeting.mp3" mi0 "t" 26214401 rfl
    (by norm_num)]
  decide

/-- Claim C2: `transcribe_meeting` always returns a result object carrying a
success flag (never an exception): every result is either a success or a
failure with an error string and a null transcript; on an existing
under-ceiling file, a failing speech-to-text call yields `success = false`
with the wrapped cause and null transcript, and a succeeding call yields
`success = true` with the transcript text. -/
theorem C2_result_object_contract (env : Env) (path : String)
    (mi : MeetingInfo) (now : String) :
    ((TranscriptionService.transcribe_meeting env path mi now).1.success = true ∨
      ((TranscriptionService.transcribe_meeting env path mi now).1.success = false ∧
       (TranscriptionService.transcribe_meeting env path mi now).1.error ≠ none ∧
       (TranscriptionService.transcribe_meeting env path mi now).1.transcript = none)) ∧
    (∀ size e, env.fs path = some size → size ≤ 26214400 →
      env.whisper path = .error e →
      (TranscriptionService.transcribe_meeting env path mi now).1.success = false ∧
      (TranscriptionService.transcribe_meeting env path mi now).1.error =
        some ("OpenAI Whisper error: " ++ e) ∧
      (TranscriptionService.transcribe_meeting env path mi now).1.transcript = none) ∧
    (∀ size w, env.fs path = some size → size ≤ 26214400 →
      env.whisper path = .ok w →
      (TranscriptionService.transcribe_meeting env path mi now).1.success = true ∧
      (TranscriptionService.transcribe_meeting env path mi now).1.transcript =
        some w.text) := by
  have hmax : TranscriptionService.max_file_size = 26214400 := by decide
  refine ⟨?_, ?_, ?_⟩
  · cases hfs : env.fs path with
    | none => simp [TranscriptionService.transcribe_meeting, hfs]
    | some size =>
      by_cases h : TranscriptionService.max_file_size < size
      · simp [TranscriptionService.transcribe_meeting, hfs, h,
          TranscriptionService._handle_large_file]
      · cases hw : env.whisper path with
        | ok w =>
          simp [TranscriptionService.transcribe_meeting, hfs, h,
            TranscriptionService._transcribe_file, hw]
        | error e =>
          simp [TranscriptionService.transcribe_meeting, hfs, h,
            TranscriptionService._transcribe_file, hw]
  · intro size e hfs hsz hw
    have h : ¬ TranscriptionService.max_file_size < size := by omega
    simp [TranscriptionService.transcribe_meeting, hfs, h,
      TranscriptionService._transcribe_file, hw]
  · intro size w hfs hsz hw
    have h : ¬ TranscriptionService.max_file_size < size := by omega
    simp [TranscriptionService.transcribe_meeting, hfs, h,
      TranscriptionService._transcribe_file, hw,
      TranscriptionService._enhance_transcript]

/-- Witness for C2: a 100-byte file whose speech-to-text call fails yields the
wrapped failure result. -/
theorem C2_result_object_contract_witness :
    envSttFail.fs "f.mp3" = some 100 ∧ (100 : Nat) ≤ 26214400 ∧
    envSttFail.whisper "f.mp3" = .error "boom" ∧
    (TranscriptionService.transcribe_meeting envSttFail "f.mp3" mi0 "t").1.success
      = false ∧
    (TranscriptionService.transcribe_meeting envSttFail "f.mp3" mi0 "t").1.error
      = some "OpenAI Whisper error: boom" ∧
    (TranscriptionService.transcribe_meeting envSttFail "f.mp3" mi0 "t").1.transcript
      = none := by
  refine ⟨rfl, by norm_num, rfl, ?_⟩
  have h := (C2_result_object_contract envSttFail "f.mp3" mi0 "t").2.1 100 "boom"
    rfl (by norm_num) rfl
  simpa using h

/-- Claim C3: when the analysis chat call succeeds, the response content is
first attempted as a direct JSON parse; exactly on parse failure the stored
analysis is the fallback record (all structured fields empty, the entire
response text in `raw_analysis`), on parse success it is the parsed record,
and the call-level success flag is `true` in both cases. -/
theorem C3_parse_fallback (env : Env) (t : String) (mi : MeetingInfo)
    (now : String) (c : ChatOk)
    (hok : env.chat MeetingAnalysisService.analysisSystem
      (MeetingAnalysisService._build_analysis_prompt t mi) = .ok c) :
    (MeetingAnalysisService.analyze_transcript env t mi now).1.success = true ∧
    (env.parseJson c.content = none →
      (MeetingAnalysisService.analyze_transcript env t mi now).1.analysis =
        some (AnalysisData.rawFallback c.content)) ∧
    (∀ d, env.parseJson c.content = some d →
      (MeetingAnalysisService.analyze_transcript env t mi now).1.analysis =
        some d) := by
  refine ⟨?_, ?_, ?_⟩
  · simp [MeetingAnalysisService.analyze_transcript, hok]
  · intro hp
    simp [MeetingAnalysisService.analyze_transcript, hok, hp]
  · intro d hp
    simp [MeetingAnalysisService.analyze_transcript, hok, hp]

/-- Witness for C3: an unparseable response is wrapped as the raw-analysis
fallback with the success flag still true. -/
theorem C3_parse_fallback_witness :
    envRawAnalysis.chat MeetingAnalysisService.analysisSystem
      (MeetingAnalysisService._build_analysis_prompt "hello" mi0) =
        .ok ⟨"not json", none⟩ ∧
    envRawAnalysis.parseJson "not json" = none ∧
    (MeetingAnalysisService.analyze_transcript envRawAnalysis "hello" mi0 "t").1.success
      = true ∧
    (MeetingAnalysisService.analyze_transcript envRawAnalysis "hello" mi0 "t").1.analysis
      = some ⟨[], [], [], [], [], some "not json"⟩ := by
  refine ⟨rfl, rfl, ?_⟩
  have h := C3_parse_fallback envRawAnalysis "hello" mi0 "t" ⟨"not json", none⟩ rfl
  exact ⟨h.1, by simpa [AnalysisData.rawFallback] using h.2.1 rfl⟩

/-- Claim C4 (amended): the service-variant analysis prompt
(`MeetingAnalysisService._build_analysis_prompt`) depends only on the first
12000 characters of the transcript (the slice `transcript[:12000]`), while the
standalone-script variant (`analyze_transcript_fixed.build_analysis_prompt`)
embeds the transcript in full — its length grows with the whole transcript. -/
theorem C4_truncation (t₁ t₂ : String) (mi : MeetingInfo)
    (h : pyTake t₁ 12000 = pyTake t₂ 12000) :
    MeetingAnalysisService._build_analysis_prompt t₁ mi =
      MeetingAnalysisService._build_analysis_prompt t₂ mi ∧
    (∀ u : String, (AnalyzeTranscriptFixed.build_analysis_prompt u mi).length =
      (AnalyzeTranscriptFixed.fixedPromptHead mi).length + u.length + 1) := by
  constructor
  · simp [MeetingAnalysisService._build_analysis_prompt, h]
  · intro u
    have hn : ("\n" : String).length = 1 := rfl
    simp [AnalyzeTranscriptFixed.build_analysis_prompt, String.length_append, hn]

/-- Witness for C4 (amended): instantiated at a concrete transcript. -/
theorem C4_truncation_witness :
    pyTake "abc" 12000 = pyTake "abc" 12000 ∧
    MeetingAnalysisService._build_analysis_prompt "abc" mi0 =
      MeetingAnalysisService._build_analysis_prompt "abc" mi0 ∧
    (AnalyzeTranscriptFixed.build_analysis_prompt "abc" mi0).length =
      (AnalyzeTranscriptFixed.fixedPromptHead mi0).length + ("abc" : String).length
        + 1 := by
  refine ⟨rfl, ?_⟩
  have h := C4_truncation "abc" "abc" mi0 rfl
  exact ⟨h.1, h.2 "abc"⟩

/-- Counterexample to C4 as stated: two transcripts that agree on their first
12000 characters (one of length 12001, one of length 12000) produce different
prompts in the standalone extraction variant
(`analyze_transcript_fixed.build_analysis_prompt`), so that variant embeds
more than the first 12000 characters — the transcript is sent in full, not
truncated. -/
theorem C4_counterexample :
    pyTake longT 12000 = pyTake longT' 12000 ∧
    AnalyzeTranscriptFixed.build_analysis_prompt longT mi0 ≠
      AnalyzeTranscriptFixed.build_analysis_prompt longT' mi0 := by
  constructor
  · show String.mk ((List.replicate 12001 'a').take 12000) =
      String.mk ((List.replicate 12000 'a').take 12000)
    rw [List.take_replicate, List.take_replicate]
    norm_num
  · intro h
    have hl := congrArg String.length h
    have h1 : longT.length = 12001 := by
      show (List.replicate 12001 'a').length = 12001
      rw [List.length_replicate]
    have h2 : longT'.length = 12000 := by
      show (List.replicate 12000 'a').length = 12000
      rw [List.length_replicate]
    simp [AnalyzeTranscriptFixed.build_analysis_prompt, String.length_append,
      h1, h2] at hl

/-- Claim C5: the newsletter generator emits `project_pipeline` iff the
analysis record's `projects` list is non-empty, `people_politics` iff
`key_people` is non-empty, and always emits `executive_summary`,
`market_intelligence` and `regulatory_watch`. -/
theorem C5_section_gating (env : Env) (analysis : AnalysisData)
    (mi : MeetingInfo) :
    ((GenerateNewsletter.generate_newsletter_content env analysis mi).project_pipeline.isSome
      ↔ analysis.projects ≠ []) ∧
    ((GenerateNewsletter.generate_newsletter_content env analysis mi).people_politics.isSome
      ↔ analysis.key_people ≠ []) ∧
    (GenerateNewsletter.generate_newsletter_content env analysis mi).executive_summary.isSome ∧
    (GenerateNewsletter.generate_newsletter_content env analysis mi).market_intelligence.isSome ∧
    (GenerateNewsletter.generate_newsletter_content env analysis mi).regulatory_watch.isSome := by
  refine ⟨?_, ?_, ?_, ?_, ?_⟩ <;>
    simp [GenerateNewsletter.generate_newsletter_content, List.isEmpty_iff,
      apply_ite Option.isSome]

/-- Helper: the section-emitting fold of `save_newsletter_content` appends,
after any prefix, exactly the blocks of the present (non-empty) sections in
list order. -/
theorem save_fold_characterisation (s : Sections) (ks : List SKey) (a : String) :
    ks.foldl
      (fun acc k =>
        match s.get k with
        | some c => if c = "" then acc else acc ++ GenerateNewsletter.renderBlock k c
        | none => acc) a =
    a ++ joinStr ((ks.filter (GenerateNewsletter.sectionPresent s)).map
      (fun k => GenerateNewsletter.renderBlock k ((s.get k).getD ""))) := by
  induction ks generalizing a with
  | nil => simp [joinStr, String.append_empty]
  | cons k ks ih =>
    simp only [List.foldl_cons, List.filter_cons]
    cases hk : s.get k with
    | none =>
      simp [GenerateNewsletter.sectionPresent, hk, ih]
    | some c =>
      by_cases hc : c = ""
      · simp [GenerateNewsletter.sectionPresent, hk, hc, ih]
      · simp [GenerateNewsletter.sectionPresent, hk, hc, ih, joinStr,
          String.append_assoc]

/-- Claim C6: the saved newsletter file is the fixed header, then — in the
fixed order executive summary, project pipeline, market intelligence,
regulatory watch, people & politics — one block per present section (its
`## <Title>` heading, the content, a horizontal rule), absent sections being
skipped, and finally the generation timestamp line. -/
theorem C6_saved_newsletter_layout (s : Sections) (mi : MeetingInfo)
    (genTime : String) :
    GenerateNewsletter.save_newsletter_body s mi genTime =
      GenerateNewsletter.fileHeader mi ++
      joinStr ((GenerateNewsletter.section_order.filter
          (GenerateNewsletter.sectionPresent s)).map
        (fun k => GenerateNewsletter.renderBlock k ((s.get k).getD ""))) ++
      GenerateNewsletter.fileTrailer genTime := by
  unfold GenerateNewsletter.save_newsletter_body
  rw [save_fold_characterisation]

/-- Claim C7: if the Market Intelligence generation call fails while the other
four succeed (and both optional sections are enabled by their data), the
output contains the four successful sections plus an inline error placeholder
embedding the cause for Market Intelligence — one section's failure aborts
nothing else. -/
theorem C7_partial_failure_isolation (env : Env) (a : AnalysisData)
    (mi : MeetingInfo) (e : String) (c₁ c₃ c₄ c₅ : ChatOk)
    (hproj : a.projects ≠ []) (hppl : a.key_people ≠ [])
    (hm : env.chat GenerateNewsletter.marketSystem
      (GenerateNewsletter.marketPrompt env a mi) = .error e)
    (hp : env.chat GenerateNewsletter.pipelineSystem
      (GenerateNewsletter.pipelinePrompt env a mi) = .ok c₁)
    (hr : env.chat GenerateNewsletter.regulatorySystem
      (GenerateNewsletter.regulatoryPrompt env a mi) = .ok c₄)
    (hpp : env.chat GenerateNewsletter.peopleSystem
      (GenerateNewsletter.peoplePrompt env a mi) = .ok c₃)
    (hx : env.chat GenerateNewsletter.executiveSystem
      (GenerateNewsletter.executivePrompt env a mi) = .ok c₅) :
    GenerateNewsletter.generate_newsletter_content env a mi =
      { executive_summary := some c₅.content,
        project_pipeline := some c₁.content,
        market_intelligence :=
          some ("Error generating market intelligence content: " ++ e),
        regulatory_watch := some c₄.content,
        people_politics := some c₃.content } := by
  have hp' : a.projects.isEmpty = false := by
    simpa [List.isEmpty_iff] using hproj
  have hk' : a.key_people.isEmpty = false := by
    simpa [List.isEmpty_iff] using hppl
  simp [GenerateNewsletter.generate_newsletter_content,
    GenerateNewsletter.generate_project_pipeline,
    GenerateNewsletter.generate_market_intelligence,
    GenerateNewsletter.generate_regulatory_watch,
    GenerateNewsletter.generate_people_politics,
    GenerateNewsletter.generate_executive_summary,
    hp', hk', hm, hp, hr, hpp, hx]

/-- Witness for C7: a chat endpoint failing exactly on the Market Intelligence
system message leaves the other four sections intact. -/
theorem C7_partial_failure_isolation_witness :
    aW.projects ≠ [] ∧ aW.key_people ≠ [] ∧
    envMarketDown.chat GenerateNewsletter.marketSystem
      (GenerateNewsletter.marketPrompt envMarketDown aW mi0) = .error "boom" ∧
    envMarketDown.chat GenerateNewsletter.pipelineSystem
      (GenerateNewsletter.pipelinePrompt envMarketDown aW mi0) = .ok ⟨"ok", none⟩ ∧
    envMarketDown.chat GenerateNewsletter.regulatorySystem
      (GenerateNewsletter.regulatoryPrompt envMarketDown aW mi0) = .ok ⟨"ok", none⟩ ∧
    envMarketDown.chat GenerateNewsletter.peopleSystem
      (GenerateNewsletter.peoplePrompt envMarketDown aW mi0) = .ok ⟨"ok", none⟩ ∧
    envMarketDown.chat GenerateNewsletter.executiveSystem
      (GenerateNewsletter.executivePrompt envMarketDown aW mi0) = .ok ⟨"ok", none⟩ ∧
    GenerateNewsletter.generate_newsletter_content envMarketDown aW mi0 =
      { executive_summary := some "ok",
        project_pipeline := some "ok",
        market_intelligence :=
          some "Error generating market intelligence content: boom",
        regulatory_watch := some "ok",
        people_politics := some "ok" } := by
  refine ⟨by simp [aW], by simp [aW], rfl, rfl, rfl, rfl, rfl, ?_⟩
  rw [C7_partial_failure_isolation envMarketDown aW mi0 "boom"
    ⟨"ok", none⟩ ⟨"ok", none⟩ ⟨"ok", none⟩ ⟨"ok", none⟩
    (by simp [aW]) (by simp [aW]) rfl rfl rfl rfl rfl]
  rfl

/-- Claim C8: the enhancement step is the identity on the transcript text with
an empty sections list, so on a successful run the transcript that
`transcribe_meeting` delivers downstream is exactly the speech-to-text output. -/
theorem C8_enhancement_is_identity :
    (∀ (raw : String) (mi : MeetingInfo),
      TranscriptionService._enhance_transcript raw mi =
        { text := raw, sections := [] }) ∧
    (∀ (env : Env) (path : String) (mi : MeetingInfo) (now : String)
      (size : Nat) (w : WhisperOk),
      env.fs path = some size → size ≤ 26214400 → env.whisper path = .ok w →
      (TranscriptionService.transcribe_meeting env path mi now).1.transcript =
        some w.text ∧
      (TranscriptionService.transcribe_meeting env path mi now).1.enhanced_sections
        = []) := by
  refine ⟨fun raw mi => rfl, ?_⟩
  intro env path mi now size w hfs hsz hw
  have hmax : TranscriptionService.max_file_size = 26214400 := by decide
  have h : ¬ TranscriptionService.max_file_size < size := by omega
  simp [TranscriptionService.transcribe_meeting, hfs, h,
    TranscriptionService._transcribe_file, hw,
    TranscriptionService._enhance_transcript]

/-- Witness for C8: enhancement of a concrete transcript is the identity, and
the transcript delivered by a successful concrete run equals the endpoint
text. -/
theorem C8_enhancement_is_identity_witness :
    TranscriptionService._enhance_transcript "hi" mi0 =
      { text := "hi", sections := [] } ∧
    envRawAnalysis.fs "f.mp3" = some 100 ∧ (100 : Nat) ≤ 26214400 ∧
    envRawAnalysis.whisper "f.mp3" = .ok ⟨"hello", none, none, []⟩ ∧
    (TranscriptionService.transcribe_meeting envRawAnalysis "f.mp3" mi0 "t").1.transcript
      = some "hello" := by
  refine ⟨C8_enhancement_is_identity.1 "hi" mi0, rfl, by norm_num, rfl, ?_⟩
  have h := C8_enhancement_is_identity.2 envRawAnalysis "f.mp3" mi0 "t" 100
    ⟨"hello", none, none, []⟩ rfl (by norm_num) rfl
  exact h.1

/-- Helper: a failed analysis result always carries an error string. -/
theorem analyze_fail_has_error (env : Env) (t : String) (mi : MeetingInfo)
    (now : String) :
    (MeetingAnalysisService.analyze_transcript env t mi now).1.success = false →
    (MeetingAnalysisService.analyze_transcript env t mi now).1.error ≠ none := by
  unfold MeetingAnalysisService.analyze_transcript
  cases env.chat MeetingAnalysisService.analysisSystem
    (MeetingAnalysisService._build_analysis_prompt t mi) <;> simp

/-- Claim C9 (amended): when the transcription stage succeeds,
`process_meeting_file` returns a combined result whose `errors` mapping has a
null `transcription_error` and an `analysis_error` that is null exactly when
the analysis stage succeeded; when the transcription stage fails, the
transcription failure object itself is returned and it carries no `errors`
mapping at all. -/
theorem C9_error_aggregation (env : Env) (path : String) (mi : MeetingInfo)
    (now : String) :
    ((TranscriptionService.transcribe_meeting env path mi now).1.success = true →
      ∃ ep, (MeetingProcessor.process_meeting_file env path mi now).1.errors =
          some ep ∧
        ep.transcription_error = none ∧
        (ep.analysis_error = none ↔
          (MeetingAnalysisService.analyze_transcript env
            ((TranscriptionService.transcribe_meeting env path mi now).1.transcript.getD "")
            mi now).1.success = true)) ∧
    ((TranscriptionService.transcribe_meeting env path mi now).1.success = false →
      (MeetingProcessor.process_meeting_file env path mi now).1.errors = none) := by
  constructor
  · intro hs
    have hproc : (MeetingProcessor.process_meeting_file env path mi now).1.errors =
        some ⟨if (TranscriptionService.transcribe_meeting env path mi now).1.success
                then none
              else (TranscriptionService.transcribe_meeting env path mi now).1.error,
              if (MeetingAnalysisService.analyze_transcript env
                  ((TranscriptionService.transcribe_meeting env path mi now).1.transcript.getD "")
                  mi now).1.success
                then none
              else (MeetingAnalysisService.analyze_transcript env
                  ((TranscriptionService.transcribe_meeting env path mi now).1.transcript.getD "")
                  mi now).1.error⟩ := by
      simp [MeetingProcessor.process_meeting_file, hs]
    refine ⟨_, hproc, ?_, ?_⟩
    · simp [hs]
    · cases ha : (MeetingAnalysisService.analyze_transcript env
        ((TranscriptionService.transcribe_meeting env path mi now).1.transcript.getD "")
        mi now).1.success with
      | true => simp [ha]
      | false =>
        have hne := analyze_fail_has_error env
          ((TranscriptionService.transcribe_meeting env path mi now).1.transcript.getD "")
          mi now ha
        simp [ha, hne]
  · intro hs
    simp [MeetingProcessor.process_meeting_file, hs, TResult.toPResult]

/-- Witness for C9 (amended): a run whose transcription succeeds and whose
analysis call fails has an errors mapping with a null transcription error and
a non-null analysis error. -/
theorem C9_error_aggregation_witness :
    (TranscriptionService.transcribe_meeting envAnalysisDown "f.mp3" mi0 "t").1.success
      = true ∧
    ∃ ep, (MeetingProcessor.process_meeting_file envAnalysisDown "f.mp3" mi0 "t").1.errors
        = some ep ∧
      ep.transcription_error = none ∧ ¬ ep.analysis_error = none := by
  refine ⟨rfl, ?_⟩
  obtain ⟨ep, h1, h2, h3⟩ :=
    (C9_error_aggregation envAnalysisDown "f.mp3" mi0 "t").1 rfl
  refine ⟨ep, h1, h2, fun hn => ?_⟩
  have hfail : (MeetingAnalysisService.analyze_transcript envAnalysisDown
      ((TranscriptionService.transcribe_meeting envAnalysisDown "f.mp3" mi0 "t").1.transcript.getD "")
      mi0 "t").1.success = false := rfl
  rw [h3.mp hn] at hfail
  cases hfail

/-- Counterexample to C9 as stated: a pipeline run whose transcription stage
fails (the file does not exist) returns a result with no `errors` mapping at
all — the per-stage error entries the claim promises for every run are
absent. -/
theorem C9_counterexample :
    (MeetingProcessor.process_meeting_file envNoFile "meeting.mp3" mi0 "t").1.success
      = false ∧
    (MeetingProcessor.process_meeting_file envNoFile "meeting.mp3" mi0 "t").1.errors
      = none := ⟨rfl, rfl⟩

/-- Claim C10: whenever transcription reports failure, `process_meeting_file`
returns the transcription stage's failure object itself (success `false`, the
same error string, a null transcript) and the analysis endpoint is never
called (zero chat-completion calls). -/
theorem C10_transcription_failure_short_circuits (env : Env) (path : String)
    (mi : MeetingInfo) (now : String)
    (h : (TranscriptionService.transcribe_meeting env path mi now).1.success
      = false) :
    MeetingProcessor.process_meeting_file env path mi now =
      ((TranscriptionService.transcribe_meeting env path mi now).1.toPResult,
       (TranscriptionService.transcribe_meeting env path mi now).2, 0) ∧
    (MeetingProcessor.process_meeting_file env path mi now).1.success = false ∧
    (MeetingProcessor.process_meeting_file env path mi now).1.error =
      (TranscriptionService.transcribe_meeting env path mi now).1.error ∧
    (MeetingProcessor.process_meeting_file env path mi now).1.transcript = none ∧
    (MeetingProcessor.process_meeting_file env path mi now).2.2 = 0 := by
  have htr : (TranscriptionService.transcribe_meeting env path mi now).1.transcript
      = none := by
    revert h
    unfold TranscriptionService.transcribe_meeting
    cases hfs : env.fs path with
    | none => simp
    | some size =>
      by_cases hsz : TranscriptionService.max_file_size < size
      · simp [hsz, TranscriptionService._handle_large_file]
      · cases hw : env.whisper path with
        | ok w => simp [hsz, TranscriptionService._transcribe_file, hw]
        | error e => simp [hsz, TranscriptionService._transcribe_file, hw]
  refine ⟨?_, ?_, ?_, ?_, ?_⟩ <;>
    simp [MeetingProcessor.process_meeting_file, h, TResult.toPResult, htr]

/-- Witness for C10: a missing file short-circuits the pipeline with the
transcription failure object and zero analysis calls. -/
theorem C10_transcription_failure_short_circuits_witness :
    (TranscriptionService.transcribe_meeting envNoFile "x.mp3" mi0 "t").1.success
      = false ∧
    (MeetingProcessor.process_meeting_file envNoFile "x.mp3" mi0 "t").1.error =
      some "File not found: x.mp3" ∧
    (MeetingProcessor.process_meeting_file envNoFile "x.mp3" mi0 "t").1.transcript
      = none ∧
    (MeetingProcessor.process_meeting_file envNoFile "x.mp3" mi0 "t").2.2 = 0 := by
  refine ⟨rfl, ?_, ?_, ?_⟩
  · have h := (C10_transcription_failure_short_circuits envNoFile "x.mp3" mi0 "t"
      rfl).2.2.1
    simpa using h
  · exact (C10_transcription_failure_short_circuits envNoFile "x.mp3" mi0 "t"
      rfl).2.2.2.1
  · exact (C10_transcription_failure_short_circuits envNoFile "x.mp3" mi0 "t"
      rfl).2.2.2.2
